import Mathlib

/-!
Verification development for the phpdoc front end of `compiler/phpdoc.cpp`:
the tag extractor (`parse_php_doc`), the tag-value tokenizer
(`php_doc_tag::get_value_token`), the by-tag lookup (`find_tag_in_phpdoc`)
and the recursive-descent type-rule parser (`parse_simple_type`,
`parse_type_array`, `parse_nested_type_rule`, `parse_type_expression`,
`parse_from_type_string`, `phpdoc_parse_type`).

Strings are embedded as `List Char` with `Nat` positions.  The C++ code
signals errors through two idioms: the `CHECK` macro (record a diagnostic
and return a null `VertexPtr`, aborting the current parse) and a bare
`kphp_error` (record a diagnostic and keep going).  We model the former by
an `Option` result together with the diagnostic appended to `PState.diags`,
and the latter by appending the diagnostic while still returning a vertex.
`parse_php_doc`'s single failure path (`kphp_error` + `return
vector<php_doc_tag>()`) is modelled as `none`; callers treat it as the
empty tag vector.
-/

/-- Primitive type tags of the compiler (`PrimitiveType` values used in
`compiler/phpdoc.cpp`). -/
inductive PrimitiveType where
  | tp_int
  | tp_string
  | tp_bool
  | tp_float
  | tp_False
  | tp_var
  | tp_void
  | tp_Unknown
  | tp_array
  | tp_tuple
  | tp_future
deriving DecidableEq, Repr

/-- Type-expression vertices produced by the parser.
`type_expr_type` embeds `op_type_expr_type` vertices (a `type_help` tag plus
child vertices), `type_expr_lca` embeds `op_type_expr_lca` (binary union).
`type_expr_class` models `GenTree::create_type_help_class_vertex`.
Modelled from the spec: `gentree.h` is not among the sources; per the spec a
class reference carries the resolved class name ("a `ClassRef` to the name is
still emitted"). -/
inductive Vertex where
  | type_expr_type (type_help : PrimitiveType) (children : List Vertex)
  | type_expr_lca (lhs rhs : Vertex)
  | type_expr_class (class_name : String)
deriving Repr

/-- `php_doc_tag::doc_type` enumeration; `unknown` is the sentinel kind for
unrecognized tag names. -/
inductive doc_type where
  | unknown
  | param
  | kphp_inline
  | kphp_infer
  | kphp_required
  | kphp_lib_export
  | kphp_sync
  | var
  | returns
  | kphp_disable_warnings
  | kphp_ext_func_info
  | kphp_pure_function
  | kphp_template
  | kphp_return
  | kphp_memcache_class
  | kphp_immutable_class
  | kphp_tl_class
  | kphp_const
deriving DecidableEq, Repr

/-- One phpdoc tag.  `line_num` is `none` when never assigned (the C++ default
before the backward line computation; modelled from the spec: "otherwise
unset"). -/
structure php_doc_tag where
  name : List Char
  value : List Char
  type : doc_type
  line_num : Option Int
deriving DecidableEq, Repr

/-- The fixed `str2doc_type` vocabulary of `compiler/phpdoc.cpp`, as an exact
match lookup.  `php_doc_tag::get_doc_type` itself lives in `phpdoc.h`
(modelled from the spec: unmatched names receive the sentinel kind). -/
def get_doc_type (name : List Char) : doc_type :=
  if name = "@param".toList then .param
  else if name = "@kphp-inline".toList then .kphp_inline
  else if name = "@kphp-infer".toList then .kphp_infer
  else if name = "@kphp-required".toList then .kphp_required
  else if name = "@kphp-lib-export".toList then .kphp_lib_export
  else if name = "@kphp-sync".toList then .kphp_sync
  else if name = "@type".toList then .var
  else if name = "@var".toList then .var
  else if name = "@return".toList then .returns
  else if name = "@returns".toList then .returns
  else if name = "@kphp-disable-warnings".toList then .kphp_disable_warnings
  else if name = "@kphp-extern-func-info".toList then .kphp_ext_func_info
  else if name = "@kphp-pure-function".toList then .kphp_pure_function
  else if name = "@kphp-template".toList then .kphp_template
  else if name = "@kphp-return".toList then .kphp_return
  else if name = "@kphp-memcache-class".toList then .kphp_memcache_class
  else if name = "@kphp-immutable-class".toList then .kphp_immutable_class
  else if name = "@kphp-tl-class".toList then .kphp_tl_class
  else if name = "@kphp-const".toList then .kphp_const
  else .unknown

/-- Number of leading `' '` characters (the first loop of
`get_value_token`, which counts only plain spaces). -/
def countLeadingSpaces : List Char → Nat
  | [] => 0
  | c :: rest => if c = ' ' then countLeadingSpaces rest + 1 else 0

/-- Advance an index past `' '` characters (the second loop of
`get_value_token`). -/
def skipSpaces (value : List Char) (i : Nat) : Nat :=
  i + countLeadingSpaces (value.drop i)

/-- Index of the first `' '` at or after `i` (`std::string::find(' ', i)`;
`none` plays the role of `npos`). -/
def findSpaceFrom (value : List Char) (i : Nat) : Option Nat :=
  match (value.drop i).findIdx? (fun c => c = ' ') with
  | none => none
  | some k => some (i + k)

/-- `php_doc_tag::get_value_token`: skip the value's leading spaces (adding
their count to `chars_offset`), skip spaces at the effective offset, then
return the run up to the next space.  If the terminating space starts the
literal sequence `" ...$"` with at least one character after the `'$'`, the
three dots are absorbed into the current token and the `'$'` is left for the
next token. -/
def get_value_token (value : List Char) (chars_offset : Nat) : List Char :=
  let len := value.length
  let co := chars_offset + countLeadingSpaces value
  let co2 := skipSpaces value co
  if co2 ≥ len then []
  else
    match findSpaceFrom value co2 with
    | none => value.drop co2
    | some pos =>
      let pos2 :=
        if len > pos + 5 ∧ (value.drop pos).take 5 = " ...$".toList
        then pos + 4 else pos
      (value.drop co2).take (pos2 - co2)

/-- The character loop of `parse_php_doc`: split the raw comment into logical
lines.  `have_star` tracks whether the per-line `'*'` marker has been seen;
before it, only `' '`/`'\t'` are tolerated and any other character is the
fatal "failed to parse php_doc" branch (modelled as `none`, which the C++
reports together with an empty tag vector).  After the marker, leading
`' '`/`'\t'` of the line are discarded and the rest is accumulated; `'\n'`
starts a new line.  `done ++ [cur]` is the C++ `lines` vector, `cur` its
`back()`. -/
def scanLines : List Char → Bool → List (List Char) → List Char →
    Option (List (List Char))
  | [], _, done, cur => some (done ++ [cur])
  | c :: rest, false, done, cur =>
    if c = ' ' ∨ c = '\t' then scanLines rest false done cur
    else if c = '*' then scanLines rest true done cur
    else none
  | c :: rest, true, done, cur =>
    if c = '\n' then scanLines rest false (done ++ [cur]) []
    else if cur = [] ∧ (c = ' ' ∨ c = '\t') then scanLines rest true done cur
    else scanLines rest true done (cur ++ [c])

/-- Build a fresh tag from an `'@'` line: the name runs to the first space
(`lines[i].find(' ')`), the rest of the line is the initial value. -/
def mkTagFromLine (line : List Char) : php_doc_tag :=
  match findSpaceFrom line 0 with
  | none => { name := line, value := [], type := get_doc_type line, line_num := none }
  | some p =>
    { name := line.take p, value := line.drop (p + 1),
      type := get_doc_type (line.take p), line_num := none }

/-- The per-line `line_num` assignment of `parse_php_doc`: when the
declaration line is positive, `min(L - (lines.size() - i), L - 2)`. -/
def set_line_num (L : Int) (n i : Nat) (t : php_doc_tag) : php_doc_tag :=
  if 0 < L then
    { t with line_num := some (min (L - ((n : Int) - (i : Int))) (L - 2)) }
  else t

/-- The tag-grouping loop of `parse_php_doc`: a line starting with `'@'`
pushes a new tag (emitting the tag built so far); any other line (including
an empty one, whose `lines[i][0]` reads as `'\0'` in the C++) is appended to
the current tag's value after a space.  In both branches the current tag's
`line_num` is (re)assigned for the line just processed. -/
def buildTags (L : Int) (n : Nat) : Nat → List (List Char) → php_doc_tag →
    List php_doc_tag
  | _, [], back => [back]
  | i, line :: rest, back =>
    if line.head? = some '@' then
      back :: buildTags L n (i + 1) rest (set_line_num L n i (mkTagFromLine line))
    else
      buildTags L n (i + 1) rest
        (set_line_num L n i { back with value := back.value ++ ' ' :: line })

/-- `parse_php_doc`:`declaration_line` stands for `stage::get_line()`.
`none` models the fatal "failed to parse php_doc" diagnostic together with
the empty tag vector the C++ returns on that path.  On success the result
starts with the default-constructed pseudo-tag. -/
def parse_php_doc (phpdoc : List Char) (declaration_line : Int) :
    Option (List php_doc_tag) :=
  match scanLines phpdoc false [] [] with
  | none => none
  | some lines =>
    some (buildTags declaration_line lines.length 0 lines
      { name := [], value := [], type := .unknown, line_num := none })

/-- The token split of `PhpDocTypeRuleParser::find_tag_in_phpdoc`: pull the
first two tokens of a tag value and decide, order-independently, which is the
`$`-prefixed variable name and which is the type text.  Returns
`(var_name, type_str)`. -/
def split_var_and_type (value : List Char) : List Char × List Char :=
  let a1 := get_value_token value 0
  let a2 := get_value_token value a1.length
  if a1 ≠ [] ∧ a1.head? = some '$' then (a1.drop 1, a2)
  else if a2 ≠ [] ∧ a2.head? = some '$' then (a2.drop 1, a1)
  else ([], a1)

/-- Scan the tag list for the `offset`-th tag of the wanted kind (the
`idx++ >= offset` bookkeeping of the C++, for non-negative offsets). -/
def find_tag_go (dt : doc_type) : Nat → List php_doc_tag →
    Option (List Char × List Char)
  | _, [] => none
  | offset, t :: rest =>
    if t.type = dt then
      if offset = 0 then some (split_var_and_type t.value)
      else find_tag_go dt (offset - 1) rest
    else find_tag_go dt offset rest

/-- `PhpDocTypeRuleParser::find_tag_in_phpdoc`: re-extract the tags (a failed
extraction behaves as the empty vector) and split the matching tag's value.
`some (var_name, type_str)` corresponds to the C++ returning `true` with the
two out-parameters filled. -/
def find_tag_in_phpdoc (phpdoc : List Char) (dt : doc_type) (offset : Nat)
    (declaration_line : Int) : Option (List Char × List Char) :=
  match parse_php_doc phpdoc declaration_line with
  | none => none
  | some tags => find_tag_go dt offset tags

/-- Parser side state: ordered `kphp_error` diagnostics and the
`unknown_classes_list` accumulator of `PhpDocTypeRuleParser`. -/
structure PState where
  diags : List String
  unknown_classes_list : List String
deriving DecidableEq, Repr

/-- The empty parser state (a freshly constructed `PhpDocTypeRuleParser`). -/
def emptyPState : PState := { diags := [], unknown_classes_list := [] }

/-- Append a `kphp_error` diagnostic. -/
def pushDiag (st : PState) (m : String) : PState :=
  { st with diags := st.diags ++ [m] }

/-- Resolution context.  `resolveUses` models `resolve_uses` from
`name-gen.h`, `getClass` models `G->get_class` (`some is_trait` when the
class is registered), `selfClassName` the current function's enclosing class
and `tlEnvPfx` the value of `G->env().get_tl_namespace_prefix()`; all are
external collaborators of this core (modelled from the spec §6). -/
structure Ctx where
  resolveUses : String → String
  getClass : String → Option Bool
  selfClassName : String
  tlEnvPfx : String

/-- `PhpDocTypeRuleParser::create_type_help_vertex`. -/
def create_type_help_vertex (t : PrimitiveType) : Vertex :=
  Vertex.type_expr_type t []

/-- `s.substr(pos, w.length) == w` for the keyword probes of
`parse_simple_type` (a truncated substring never compares equal). -/
def substrEq (s : List Char) (pos : Nat) (w : List Char) : Bool :=
  (s.drop pos).take w.length = w

/-- ASCII `isalnum`. -/
def isAlnumAscii (c : Char) : Bool :=
  ('0' ≤ c ∧ c ≤ '9') ∨ ('a' ≤ c ∧ c ≤ 'z') ∨ ('A' ≤ c ∧ c ≤ 'Z')

/-- `PhpDocTypeRuleParser::extract_classname_from_pos`: the run of
alphanumeric characters, backslashes and underscores from `pos`. -/
def extract_classname_from_pos (s : List Char) (pos : Nat) : List Char :=
  (s.drop pos).takeWhile (fun c => isAlnumAscii c ∨ c = '\\' ∨ c = '_')

def msg_unexpected_end : String := "Failed to parse phpdoc type: unexpected end"

def msg_unmatching_paren : String := "Failed to parse phpdoc type: unmatching ()"

def msg_unmatching_brackets : String := "Failed to parse phpdoc type: unmatching []"

def msg_expected_open : String := "Failed to parse phpdoc type: expected open bracket"

def msg_expected_comma : String := "Failed to parse phpdoc type: expected comma"

def msg_trailing : String :=
  "Failed to parse phpdoc type: something left at the end after parsing"

def msg_unknown_type_name (s : List Char) : String :=
  "Failed to parse phpdoc type: Unknown type name [" ++ String.mk s ++ "]"

def msg_trait (class_name : String) : String :=
  "You may not use trait(" ++ class_name ++ ") as a type-hint"

def msg_bool_lint : String :=
  "Do not use |bool in phpdoc, use |false instead\n(if you really need bool, specify |boolean)"

def msg_unknown_class (c : String) : String :=
  "Could not find class in phpdoc: " ++ c ++
    "\nProbably, this class is used only in phpdoc and never created in reachable code"

/-- The `default:` branch of `parse_simple_type`: optional `"@tl\\"` prefix,
then a class-name reference.  The resolved name is looked up; an absent
class is queued on `unknown_classes_list` and a trait raises the (non-fatal)
trait diagnostic; in both cases the class vertex is still returned.  The
message argument of the trait diagnostic is `klass->get_name()`, modelled as
the resolved name. -/
def parse_class_name_branch (ctx : Ctx) (s : List Char) (pos : Nat)
    (st : PState) : Option (Vertex × Nat) × PState :=
  let hasTl := substrEq s pos ("@tl\\".toList)
  let pos1 := if hasTl then pos + 4 else pos
  match s.get? pos1 with
  | none => (none, pushDiag st (msg_unknown_type_name s))
  | some c =>
    if c = '\\' ∨ ('A' ≤ c ∧ c ≤ 'Z') ∨
        (hasTl ∧ (('a' ≤ c ∧ c ≤ 'z') ∨ c = '_')) then
      let rel := extract_classname_from_pos s pos1
      let pos2 := pos1 + rel.length
      let full := if hasTl then ctx.tlEnvPfx ++ String.mk rel else String.mk rel
      let class_name := ctx.resolveUses full
      let klass := ctx.getClass class_name
      let st1 :=
        if klass = none then
          { st with unknown_classes_list := st.unknown_classes_list ++ [class_name] }
        else st
      let st2 := if klass = some true then pushDiag st1 (msg_trait class_name) else st1
      (some (Vertex.type_expr_class class_name, pos2), st2)
    else (none, pushDiag st (msg_unknown_type_name s))

/-- Dispatch labels for the mutually recursive member functions of
`PhpDocTypeRuleParser` (and their interior loops), so that the whole nest is
one function structurally recursive on its fuel.  Each constructor carries
the live arguments of the corresponding C++ procedure. -/
inductive PCall where
  | simple (pos : Nat)
  | typeArray (pos : Nat)
  | arraySuffix (res : Vertex) (pos : Nat)
  | nested (type_help : PrimitiveType) (pos : Nat)
  | nestedArgs (type_help : PrimitiveType) (acc : List Vertex) (pos : Nat)
  | expr (pos : Nat)
  | unionStep (res : Vertex) (has_raw_bool : Bool) (pos : Nat)

/-- The recursive-descent core of `PhpDocTypeRuleParser`.  The `Nat` argument
is fuel bounding recursion depth (an embedding artifact; the top entry point
supplies more than enough).  The arms are, in order:

* `.simple` — `parse_simple_type`: the C++ `switch` over `s[pos]`, including
  the fall-through from `case '\\'` into the class-name default branch;
* `.typeArray` / `.arraySuffix` — `parse_type_array` and its
  `while (s[pos] == '[')` loop: each `[]` pair wraps the result in one more
  array vertex, a `[` not followed by `]` is the "unmatching []" failure;
* `.nested` / `.nestedArgs` — `parse_nested_type_rule`: require `'<'` or
  `'('`, then type expressions separated by `','` until a `'>'` or `')'`
  (either closer is accepted regardless of the opener);
* `.expr` / `.unionStep` — `parse_type_expression` and its
  `while (s[pos] == '|')` loop, tracking whether any member's literal text
  was exactly `"bool"`; after the loop, if the result is an
  `op_type_expr_lca` vertex and some member was spelled `bool`, the
  (non-fatal) `|bool` lint diagnostic is appended. -/
def parse_run (ctx : Ctx) (s : List Char) : Nat → PCall → PState →
    Option (Vertex × Nat) × PState
  | 0, _, st => (none, st)
  | Nat.succ fuel, call, st =>
    match call with
    | .simple pos =>
      match s.get? pos with
      | none => (none, pushDiag st msg_unexpected_end)
      | some c =>
        match c with
        | '(' =>
          (match parse_run ctx s fuel (.expr (pos + 1)) st with
           | (none, st1) => (none, st1)
           | (some (v, pos1), st1) =>
             if s.get? pos1 = some ')' then (some (v, pos1 + 1), st1)
             else (none, pushDiag st1 msg_unmatching_paren))
        | 's' =>
          if substrEq s pos "string".toList then
            (some (create_type_help_vertex .tp_string, pos + 6), st)
          else if substrEq s pos "self".toList then
            (some (Vertex.type_expr_class ctx.selfClassName, pos + 4), st)
          else (none, pushDiag st (msg_unknown_type_name s))
        | 'i' =>
          if substrEq s pos "integer".toList then
            (some (create_type_help_vertex .tp_int, pos + 7), st)
          else if substrEq s pos "int".toList then
            (some (create_type_help_vertex .tp_int, pos + 3), st)
          else (none, pushDiag st (msg_unknown_type_name s))
        | 'b' =>
          if substrEq s pos "boolean".toList then
            (some (create_type_help_vertex .tp_bool, pos + 7), st)
          else if substrEq s pos "bool".toList then
            (some (create_type_help_vertex .tp_bool, pos + 4), st)
          else (none, pushDiag st (msg_unknown_type_name s))
        | 'f' =>
          if substrEq s pos "float".toList then
            (some (create_type_help_vertex .tp_float, pos + 5), st)
          else if substrEq s pos "false".toList then
            (some (create_type_help_vertex .tp_False, pos + 5), st)
          else if substrEq s pos "future".toList then
            parse_run ctx s fuel (.nested .tp_future (pos + 6)) st
          else (none, pushDiag st (msg_unknown_type_name s))
        | 'd' =>
          if substrEq s pos "double".toList then
            (some (create_type_help_vertex .tp_float, pos + 6), st)
          else (none, pushDiag st (msg_unknown_type_name s))
        | 'm' =>
          if substrEq s pos "mixed".toList then
            (some (create_type_help_vertex .tp_var, pos + 5), st)
          else (none, pushDiag st (msg_unknown_type_name s))
        | 'n' =>
          if substrEq s pos "null".toList then
            (some (create_type_help_vertex .tp_var, pos + 4), st)
          else (none, pushDiag st (msg_unknown_type_name s))
        | 't' =>
          if substrEq s pos "true".toList then
            (some (create_type_help_vertex .tp_bool, pos + 4), st)
          else if substrEq s pos "tuple".toList then
            parse_run ctx s fuel (.nested .tp_tuple (pos + 5)) st
          else (none, pushDiag st (msg_unknown_type_name s))
        | 'a' =>
          if substrEq s pos "array".toList then
            (some (Vertex.type_expr_type .tp_array
              [create_type_help_vertex .tp_Unknown], pos + 5), st)
          else (none, pushDiag st (msg_unknown_type_name s))
        | 'v' =>
          if substrEq s pos "void".toList then
            (some (create_type_help_vertex .tp_void, pos + 4), st)
          else (none, pushDiag st (msg_unknown_type_name s))
        | '\\' =>
          if substrEq s pos "\\tuple".toList then
            parse_run ctx s fuel (.nested .tp_tuple (pos + 6)) st
          else if substrEq s pos "\\future".toList then
            parse_run ctx s fuel (.nested .tp_future (pos + 7)) st
          else parse_class_name_branch ctx s pos st
        | _ => parse_class_name_branch ctx s pos st
    | .typeArray pos =>
      (match parse_run ctx s fuel (.simple pos) st with
       | (none, st1) => (none, st1)
       | (some (res, pos1), st1) =>
         parse_run ctx s fuel (.arraySuffix res pos1) st1)
    | .arraySuffix res pos =>
      if s.get? pos = some '[' then
        if s.get? (pos + 1) = some ']' then
          parse_run ctx s fuel
            (.arraySuffix (Vertex.type_expr_type .tp_array [res]) (pos + 2)) st
        else (none, pushDiag st msg_unmatching_brackets)
      else (some (res, pos), st)
    | .nested type_help pos =>
      if s.get? pos = some '<' ∨ s.get? pos = some '(' then
        parse_run ctx s fuel (.nestedArgs type_help [] (pos + 1)) st
      else (none, pushDiag st msg_expected_open)
    | .nestedArgs type_help acc pos =>
      (match parse_run ctx s fuel (.expr pos) st with
       | (none, st1) => (none, st1)
       | (some (v, pos1), st1) =>
         match s.get? pos1 with
         | none => (none, pushDiag st1 msg_unexpected_end)
         | some c =>
           if c = '>' ∨ c = ')' then
             (some (Vertex.type_expr_type type_help (acc ++ [v]), pos1 + 1), st1)
           else if c = ',' then
             parse_run ctx s fuel (.nestedArgs type_help (acc ++ [v]) (pos1 + 1)) st1
           else (none, pushDiag st1 msg_expected_comma))
    | .expr pos =>
      (match parse_run ctx s fuel (.typeArray pos) st with
       | (none, st1) => (none, st1)
       | (some (res, pos1), st1) =>
         parse_run ctx s fuel
           (.unionStep res
             (decide ((s.drop pos).take (pos1 - pos) = "bool".toList)) pos1) st1)
    | .unionStep res has_raw_bool pos =>
      if s.get? pos = some '|' then
        match parse_run ctx s fuel (.typeArray (pos + 1)) st with
        | (none, st1) => (none, st1)
        | (some (next, pos1), st1) =>
          parse_run ctx s fuel
            (.unionStep (Vertex.type_expr_lca res next)
              (has_raw_bool ||
                decide ((s.drop (pos + 1)).take (pos1 - (pos + 1)) = "bool".toList))
              pos1) st1
      else
        match res with
        | Vertex.type_expr_lca a b =>
          (some (Vertex.type_expr_lca a b, pos),
           if has_raw_bool then pushDiag st msg_bool_lint else st)
        | r => (some (r, pos), st)

/-- `PhpDocTypeRuleParser::parse_simple_type`. -/
def parse_simple_type (ctx : Ctx) (s : List Char) (fuel pos : Nat)
    (st : PState) : Option (Vertex × Nat) × PState :=
  parse_run ctx s fuel (.simple pos) st

/-- `PhpDocTypeRuleParser::parse_type_array`. -/
def parse_type_array (ctx : Ctx) (s : List Char) (fuel pos : Nat)
    (st : PState) : Option (Vertex × Nat) × PState :=
  parse_run ctx s fuel (.typeArray pos) st

/-- `PhpDocTypeRuleParser::parse_nested_type_rule`. -/
def parse_nested_type_rule (ctx : Ctx) (s : List Char) (fuel : Nat)
    (type_help : PrimitiveType) (pos : Nat) (st : PState) :
    Option (Vertex × Nat) × PState :=
  parse_run ctx s fuel (.nested type_help pos) st

/-- `PhpDocTypeRuleParser::parse_type_expression`. -/
def parse_type_expression (ctx : Ctx) (s : List Char) (fuel pos : Nat)
    (st : PState) : Option (Vertex × Nat) × PState :=
  parse_run ctx s fuel (.expr pos) st

/-- `ends_with` of `vk::string_view`. -/
def ends_with (l w : List Char) : Bool :=
  l.drop (l.length - w.length) = w

/-- `PhpDocTypeRuleParser::parse_from_type_string`: parse a whole tag's type
text from position 0; when exactly the literal suffix `" ..."` remains, it is
consumed and the result wrapped in one more array vertex; any other leftover
input is the "something left at the end" failure. -/
def parse_from_type_string (ctx : Ctx) (type_str : List Char) (st : PState) :
    Option Vertex × PState :=
  match parse_type_expression ctx type_str (4 * type_str.length + 16) 0 st with
  | (none, st1) => (none, st1)
  | (some (res, pos), st1) =>
    let varg : List Char := " ...".toList
    let resPos : Vertex × Nat :=
      if type_str.length = pos + varg.length ∧ ends_with type_str varg then
        (Vertex.type_expr_type .tp_array [res], pos + varg.length)
      else (res, pos)
    if resPos.2 = type_str.length then (some resPos.1, st1)
    else (none, pushDiag st1 msg_trailing)

/-- `phpdoc_parse_type`: run a fresh parser on the type string, then
`kphp_error_act` on a non-empty `unknown_classes_list` (report the first
unresolved name once, after the whole parse, and return the null vertex). -/
def phpdoc_parse_type (ctx : Ctx) (type_str : List Char) :
    Option Vertex × PState :=
  match parse_from_type_string ctx type_str emptyPState with
  | (res, st) =>
    match st.unknown_classes_list with
    | [] => (res, st)
    | c :: _ => (none, pushDiag st (msg_unknown_class c))

/-- A resolution context in which `A`, `B`, `C` and `T` are registered
non-trait classes and name resolution is the identity. -/
def ctxAll : Ctx :=
  { resolveUses := fun s => s,
    getClass := fun s => if s = "A" ∨ s = "B" ∨ s = "C" ∨ s = "T" then some false else none,
    selfClassName := "Self",
    tlEnvPfx := "tl\\" }

/-- A context in which `T` is registered as a trait. -/
def ctxTrait : Ctx :=
  { resolveUses := fun s => s,
    getClass := fun s => if s = "T" then some true else none,
    selfClassName := "Self",
    tlEnvPfx := "tl\\" }

/-- A context whose class table is empty. -/
def ctxNone : Ctx :=
  { resolveUses := fun s => s,
    getClass := fun _ => none,
    selfClassName := "Self",
    tlEnvPfx := "tl\\" }


/-- Comment lines with their terminating `'\n'` kept (the final line has
none).  Used to state the success condition of the tag extractor at the
line level. -/
def splitKeepNL : List Char → List (List Char)
  | [] => [[]]
  | c :: cs =>
    if c = '\n' then [c] :: splitKeepNL cs
    else
      match splitKeepNL cs with
      | [] => [[c]]
      | l :: ls => (c :: l) :: ls

/-- A line is well formed for the extractor when every character before its
first `'*'` marker is a space or a tab (the extractor's whitespace set); for
a line without a marker this requires the whole line — including the
terminating newline of a non-final line — to be spaces and tabs. -/
def lineOk (l : List Char) : Bool :=
  (l.takeWhile (fun c => c != '*')).all (fun c => c == ' ' || c == '\t')

/-- The backward line-number formula of `parse_php_doc`:
`min(L - (n - i), L - 2)` for line index `i` of `n` total lines. -/
def lnFormula (L : Int) (n i : Nat) : Int :=
  min (L - ((n : Int) - (i : Int))) (L - 2)

/-- Specification of the `line_num` values assigned by the tag-grouping
loop when the declaration line `L` is positive: the extractor re-assigns the
current tag's number at every line, so each emitted tag carries the formula
evaluated at the index of its LAST contributing line — the entry carried in
`prev` when the next `'@'` line (or the end) is reached.  The head `prev`
of the result is the pseudo-tag's number (`none` when no line precedes the
first tag line). -/
def lineNumsSpec (L : Int) (n : Nat) : Nat → Option Int → List (List Char) →
    List (Option Int)
  | _, prev, [] => [prev]
  | i, prev, line :: rest =>
    if line.head? = some '@' then
      prev :: lineNumsSpec L n (i + 1) (some (lnFormula L n i)) rest
    else
      lineNumsSpec L n (i + 1) (some (lnFormula L n i)) rest

theorem splitKeepNL_ne_nil (cs : List Char) : splitKeepNL cs ≠ [] := by
  cases cs with
  | nil => simp [splitKeepNL]
  | cons c cs =>
    simp only [splitKeepNL]
    split
    · simp
    · split <;> simp

/-- Success of the character scan depends only on the input and the
`have_star` state, and is characterized line by line. -/
theorem scanLines_isSome (cs : List Char) :
    (∀ done cur, (scanLines cs false done cur).isSome = (splitKeepNL cs).all lineOk)
    ∧ (∀ done cur, (scanLines cs true done cur).isSome
        = ((splitKeepNL cs).tail).all lineOk) := by
  induction cs with
  | nil =>
    constructor <;> intro done cur <;> simp [scanLines, splitKeepNL, lineOk]
  | cons c cs ih =>
    obtain ⟨ihA, ihB⟩ := ih
    obtain ⟨l, ls, hsplit⟩ : ∃ l ls, splitKeepNL cs = l :: ls := by
      cases h : splitKeepNL cs with
      | nil => exact absurd h (splitKeepNL_ne_nil cs)
      | cons l ls => exact ⟨l, ls, rfl⟩
    constructor
    · intro done cur
      by_cases h1 : c = ' ' ∨ c = '\t'
      · rcases h1 with rfl | rfl <;>
          simp [scanLines, splitKeepNL, hsplit, lineOk, List.takeWhile_cons, ihA]
      · obtain ⟨ha, hb⟩ := not_or.mp h1
        by_cases h2 : c = '*'
        · subst h2
          simp [scanLines, splitKeepNL, hsplit, lineOk, List.takeWhile_cons, ihB]
        · by_cases h3 : c = '\n'
          · subst h3
            simp [scanLines, splitKeepNL, hsplit, lineOk, List.takeWhile_cons]
          · simp [scanLines, splitKeepNL, hsplit, lineOk, List.takeWhile_cons,
              ha, hb, h2, h3]
    · intro done cur
      by_cases h3 : c = '\n'
      · subst h3
        simp [scanLines, splitKeepNL, hsplit, ihA]
      · by_cases h4 : cur = [] ∧ (c = ' ' ∨ c = '\t')
        · simp [scanLines, splitKeepNL, hsplit, h3, h4, ihB]
        · simp [scanLines, splitKeepNL, hsplit, h3, h4, ihB]

/-- With a positive declaration line, the grouping loop's `line_num` stream
is exactly `lineNumsSpec`. -/
theorem buildTags_map_line_num (L : Int) (hL : 0 < L) (n : Nat) :
    ∀ (ls : List (List Char)) (i : Nat) (back : php_doc_tag),
      (buildTags L n i ls back).map (fun t => t.line_num)
        = lineNumsSpec L n i back.line_num ls := by
  intro ls
  induction ls with
  | nil => intro i back; simp [buildTags, lineNumsSpec]
  | cons line rest ih =>
    intro i back
    by_cases h : line.head? = some '@'
    · simp [buildTags, lineNumsSpec, h, ih, set_line_num, hL, lnFormula]
    · simp [buildTags, lineNumsSpec, h, ih, set_line_num, hL, lnFormula]

/-- With a non-positive declaration line, no tag ever receives a
`line_num`. -/
theorem buildTags_line_num_none (L : Int) (hL : ¬ 0 < L) (n : Nat) :
    ∀ (ls : List (List Char)) (i : Nat) (back : php_doc_tag),
      back.line_num = none →
      ∀ t ∈ buildTags L n i ls back, t.line_num = none := by
  intro ls
  induction ls with
  | nil =>
    intro i back hb t ht
    simp [buildTags] at ht
    exact ht ▸ hb
  | cons line rest ih =>
    intro i back hb t ht
    by_cases h : line.head? = some '@'
    · simp [buildTags, h] at ht
      rcases ht with rfl | ht
      · exact hb
      · refine ih _ _ ?_ t ht
        cases hf : findSpaceFrom line 0 <;>
          simp [set_line_num, hL, mkTagFromLine, hf]
    · simp [buildTags, h] at ht
      refine ih _ _ ?_ t ht
      simp [set_line_num, hL, hb]

/-- C1: In the type grammar, the trailing `[]` array suffix binds tighter
than the `|` union operator — `"A|B[]"` parses to
`Union(A, ArrayOf(B))`, never `ArrayOf(Union(A, B))` — an n-ary union
`"A|B|C"` builds a left-leaning chain `Union(Union(A, B), C)` in source
order, and repeated suffixes nest: `"T[][]"` parses to
`ArrayOf(ArrayOf(T))` (here `A`, `B`, `C`, `T` are registered classes). -/
theorem phpdoc_type_precedence_and_associativity :
    parse_from_type_string ctxAll ("A|B[]".toList) emptyPState =
      (some (.type_expr_lca (.type_expr_class "A")
        (.type_expr_type .tp_array [.type_expr_class "B"])), emptyPState)
    ∧ parse_from_type_string ctxAll ("A|B|C".toList) emptyPState =
      (some (.type_expr_lca
        (.type_expr_lca (.type_expr_class "A") (.type_expr_class "B"))
        (.type_expr_class "C")), emptyPState)
    ∧ parse_from_type_string ctxAll ("T[][]".toList) emptyPState =
      (some (.type_expr_type .tp_array
        [.type_expr_type .tp_array [.type_expr_class "T"]]), emptyPState) :=
  ⟨rfl, rfl, rfl⟩

/-- C2 counterexample: parsing `"hello world"` directly as a full type
string does NOT fail with the TrailingInput diagnostic; it fails earlier
with the UnknownTypeName diagnostic (lowercase `hello` matches no grammar
rule), so the claim's predicted error is wrong at this input. -/
theorem phpdoc_hello_world_counterexample :
    parse_from_type_string ctxAll ("hello world".toList) emptyPState =
      (none, { diags := [msg_unknown_type_name ("hello world".toList)],
               unknown_classes_list := [] })
    ∧ msg_unknown_type_name ("hello world".toList) ≠ msg_trailing :=
  ⟨rfl, by decide⟩

/-- C2 (amended): after the top-level parse, the entire input must be
consumed — if a valid type was parsed but characters remain (and they are
not the variadic `" ..."` suffix), the parse fails with the TrailingInput
diagnostic, as for `"int foo"` — but `"hello world"` fails earlier with
UnknownTypeName, because the leading token `hello` never parses as a type,
so the TrailingInput path is not reached on that input. -/
theorem phpdoc_trailing_input_postcondition :
    parse_from_type_string ctxAll ("int foo".toList) emptyPState =
      (none, { diags := [msg_trailing], unknown_classes_list := [] })
    ∧ parse_from_type_string ctxAll ("int".toList) emptyPState =
      (some (create_type_help_vertex .tp_int), emptyPState)
    ∧ parse_from_type_string ctxAll ("hello world".toList) emptyPState =
      (none, { diags := [msg_unknown_type_name ("hello world".toList)],
               unknown_classes_list := [] }) :=
  ⟨rfl, rfl, rfl⟩

/-- C3: Tag extraction never fails — for every comment body it returns the
ordered tag sequence, except that a malformed block produces the fatal
diagnostic and the empty sequence (modelled as `none`); and extraction
succeeds exactly when no line of the comment (its terminating newline
included) reaches a stray non-whitespace character — anything other than
`' '`/`'\t'` — before its leading `'*'` marker. -/
theorem parse_php_doc_success_iff (phpdoc : List Char) (L : Int) :
    (parse_php_doc phpdoc L).isSome = (splitKeepNL phpdoc).all lineOk := by
  have h := (scanLines_isSome phpdoc).1 [] []
  cases hs : scanLines phpdoc false [] [] with
  | none =>
    rw [hs] at h
    simp only [Option.isSome_none, Bool.false_eq] at h
    simp [parse_php_doc, hs, h]
  | some lines =>
    rw [hs] at h
    simp only [Option.isSome_some, Bool.true_eq] at h
    simp [parse_php_doc, hs, h]

/-- C4: The by-tag-kind lookup splits a tag's value into the `$`-prefixed
variable-name token and the type token order-independently: for a var-type
tag, the values `"$a bool "` and `"bool $a "` both yield variable name `a`
and type text `bool`; `"$a"` alone yields variable name `a` and empty type
text; and `"mixed some comment"` yields empty variable name and type text
`mixed`, the trailing free text being discarded. -/
theorem find_tag_value_token_split :
    find_tag_in_phpdoc ("* @var $a bool ".toList) .var 0 0
      = some ("a".toList, "bool".toList)
    ∧ find_tag_in_phpdoc ("* @var bool $a ".toList) .var 0 0
      = some ("a".toList, "bool".toList)
    ∧ find_tag_in_phpdoc ("* @var $a".toList) .var 0 0
      = some ("a".toList, [])
    ∧ find_tag_in_phpdoc ("* @var mixed some comment".toList) .var 0 0
      = some ([], "mixed".toList) :=
  ⟨rfl, rfl, rfl, rfl⟩

/-- C5: A class name absent from the class table does not make the parse of
the type string fail: a class reference to the resolved name is still
emitted and the name is appended to the `unknown_classes_list` accumulator
(here for `"A"` and for both members of `"A|B"`); the wrapper
`phpdoc_parse_type` then reports the accumulator's contents once, after the
whole type string has been parsed, rather than at the point of first
reference. -/
theorem phpdoc_unknown_class_deferred :
    parse_from_type_string ctxNone ("A".toList) emptyPState =
      (some (.type_expr_class "A"),
       { diags := [], unknown_classes_list := ["A"] })
    ∧ parse_from_type_string ctxNone ("A|B".toList) emptyPState =
      (some (.type_expr_lca (.type_expr_class "A") (.type_expr_class "B")),
       { diags := [], unknown_classes_list := ["A", "B"] })
    ∧ phpdoc_parse_type ctxNone ("A".toList) =
      (none, { diags := [msg_unknown_class "A"], unknown_classes_list := ["A"] }) :=
  ⟨rfl, rfl, rfl⟩

/-- C6: Parsing a union one of whose member tokens is the literal spelling
`bool` (`"int|bool"`) yields a successful parse together with the lint
diagnostic recommending `false`; the lint is raised only when the result is
a union of two or more members (a lone `"bool"` raises none), a union
spelled with `boolean` (`"int|boolean"`) raises no lint, and the lint never
aborts parsing. -/
theorem phpdoc_union_bool_lint :
    parse_from_type_string ctxAll ("int|bool".toList) emptyPState =
      (some (.type_expr_lca (create_type_help_vertex .tp_int)
        (create_type_help_vertex .tp_bool)),
       { diags := [msg_bool_lint], unknown_classes_list := [] })
    ∧ parse_from_type_string ctxAll ("int|boolean".toList) emptyPState =
      (some (.type_expr_lca (create_type_help_vertex .tp_int)
        (create_type_help_vertex .tp_bool)), emptyPState)
    ∧ parse_from_type_string ctxAll ("bool".toList) emptyPState =
      (some (create_type_help_vertex .tp_bool), emptyPState) :=
  ⟨rfl, rfl, rfl⟩

/-- C7: Variadic parameters are handled in two coordinated steps: the
tokenizer, at a token boundary immediately followed by the literal sequence
`" ...$"`, absorbs the dots into the current token while leaving the `$`
attached to the next token (so `"A ...$arg"` tokenizes as `A ...` then
`$arg`, and the whole tag still splits into variable `arg` and type text
`A ...`); and the whole-tag type parse, finding the remaining suffix to be
exactly `" ..."`, consumes it and wraps the parsed type in one more
ArrayOf. -/
theorem phpdoc_variadic_handling :
    get_value_token ("A ...$arg".toList) 0 = "A ...".toList
    ∧ get_value_token ("A ...$arg".toList) 5 = "$arg".toList
    ∧ find_tag_in_phpdoc ("* @param A ...$arg".toList) .param 0 0
      = some ("arg".toList, "A ...".toList)
    ∧ parse_from_type_string ctxAll ("A ...".toList) emptyPState =
      (some (.type_expr_type .tp_array [.type_expr_class "A"]), emptyPState) :=
  ⟨rfl, rfl, rfl, rfl⟩

/-- C8 counterexample: for the comment `"* @a\n* x\n* @b"` (3 logical
lines) with declaration line 10, the tag `@a` starts at line index 0, so
the claim's formula `min(L - (n - start), L - 2)` predicts `7`; the
extractor assigns `8`, because the continuation line `x` (index 1)
re-assigns the tag's number. -/
theorem parse_php_doc_line_num_counterexample :
    parse_php_doc ("* @a\n* x\n* @b".toList) 10 =
      some [{ name := [], value := [], type := .unknown, line_num := none },
            { name := "@a".toList, value := " x".toList, type := .unknown,
              line_num := some 8 },
            { name := "@b".toList, value := [], type := .unknown,
              line_num := some 8 }]
    ∧ min (10 - ((3 : Int) - 0)) (10 - 2) = 7
    ∧ some (8 : Int) ≠ some (7 : Int) :=
  ⟨rfl, by decide, by decide⟩

/-- C8 (amended): when the declaration line `L` is positive, each extracted
tag's `source_line` is `min(L - (total_lines - i), L - 2)` where `i` is the
index of the tag's LAST contributing line (its starting line only when no
continuation lines follow it), and the leading pseudo-tag's `source_line`
stays unset when the comment's first line already starts a tag; when the
declaration line is not positive, every tag's `source_line` is left
unset. -/
theorem parse_php_doc_line_nums (phpdoc : List Char) (L : Int)
    (lines : List (List Char))
    (hs : scanLines phpdoc false [] [] = some lines) :
    (0 < L →
      (parse_php_doc phpdoc L).map (fun tags => tags.map (fun t => t.line_num))
        = some (lineNumsSpec L lines.length 0 none lines))
    ∧ (¬ 0 < L →
      ((parse_php_doc phpdoc L).getD []).map (fun t => t.line_num)
        = List.replicate ((parse_php_doc phpdoc L).getD []).length none) := by
  constructor
  · intro hL
    have h := buildTags_map_line_num L hL lines.length lines 0
      { name := [], value := [], type := .unknown, line_num := none }
    simp [parse_php_doc, hs]
    exact h
  · intro hL
    rw [List.eq_replicate_iff]
    refine ⟨by simp, ?_⟩
    intro b hb
    simp [parse_php_doc, hs] at hb
    obtain ⟨t, ht, rfl⟩ := hb
    exact buildTags_line_num_none L hL lines.length lines 0 _ rfl t ht

/-- Witness for the amended C8 theorem at the concrete comment
`"* @a\n* x\n* @b"`, with declaration line 10 (positive case) and 0
(unknown case). -/
theorem parse_php_doc_line_nums_witness :
    ((parse_php_doc ("* @a\n* x\n* @b".toList) 10).map
        (fun tags => tags.map (fun t => t.line_num))
      = some (lineNumsSpec 10 3 0 none
          ["@a".toList, "x".toList, "@b".toList]))
    ∧ (((parse_php_doc ("* @a\n* x\n* @b".toList) 0).getD []).map
          (fun t => t.line_num)
        = List.replicate
            ((parse_php_doc ("* @a\n* x\n* @b".toList) 0).getD []).length none) :=
  ⟨(parse_php_doc_line_nums ("* @a\n* x\n* @b".toList) 10
      ["@a".toList, "x".toList, "@b".toList] rfl).1 (by decide),
   (parse_php_doc_line_nums ("* @a\n* x\n* @b".toList) 0
      ["@a".toList, "x".toList, "@b".toList] rfl).2 (by decide)⟩

/-- C9 counterexample: with `T` registered as a trait, parsing `"T"` raises
the trait diagnostic yet still RETURNS a type expression (`some`, not a
failure), so the claim that the error "aborts the current tag's type
resolution" is wrong: the trait check is a non-fatal `kphp_error`, not a
`CHECK`. -/
theorem phpdoc_trait_counterexample :
    parse_from_type_string ctxTrait ("T".toList) emptyPState =
      (some (.type_expr_class "T"),
       { diags := [msg_trait "T"], unknown_classes_list := [] })
    ∧ (some (Vertex.type_expr_class "T") ≠ (none : Option Vertex)) :=
  ⟨rfl, by simp⟩

/-- C9 (amended): when the class name resolves to a registered trait, a
distinct trait-used-as-type diagnostic is raised (not the UnknownTypeName
one), but unlike the grammar errors it does not abort the parse: both
`parse_from_type_string` and the `phpdoc_parse_type` wrapper still return
the class type expression alongside the diagnostic. -/
theorem phpdoc_trait_nonfatal :
    parse_from_type_string ctxTrait ("T".toList) emptyPState =
      (some (.type_expr_class "T"),
       { diags := [msg_trait "T"], unknown_classes_list := [] })
    ∧ phpdoc_parse_type ctxTrait ("T".toList) =
      (some (.type_expr_class "T"),
       { diags := [msg_trait "T"], unknown_classes_list := [] })
    ∧ msg_trait "T" ≠ msg_unknown_type_name ("T".toList) :=
  ⟨rfl, rfl, by decide⟩

/-- C10: When parsing the argument list of a parameterized type
(tuple/future), the closing bracket is accepted as either `'>'` or `')'`
regardless of which opening bracket introduced the construct:
`"tuple<int,string)"` and `"future(int>"` both parse successfully, with no
bracket-mismatch error for a crossed pair. -/
theorem phpdoc_crossed_brackets :
    parse_from_type_string ctxAll ("tuple<int,string)".toList) emptyPState =
      (some (.type_expr_type .tp_tuple
        [create_type_help_vertex .tp_int, create_type_help_vertex .tp_string]),
       emptyPState)
    ∧ parse_from_type_string ctxAll ("future(int>".toList) emptyPState =
      (some (.type_expr_type .tp_future [create_type_help_vertex .tp_int]),
       emptyPState) :=
  ⟨rfl, rfl⟩
